import Mathlib

/-!
# Verification of the AI video analysis platform's core pipeline

Shallow embedding of the acquisition / file-resolution / transcription
pipeline of `src/services/youtube_service.py` and
`src/services/transcript_service.py`, together with proofs of the spec's
claims about it.

External effects (the `yt_dlp` extractor, the filesystem, the two Whisper
backends, the SQLAlchemy session) are modelled as explicit inputs in an
environment record; database commits are modelled as a list of committed
record states.
-/

namespace VideoPlatform

/-- Decidable equality for `Except`, so concrete runs can be checked by
`decide`. -/
def exceptDecEq {ε α : Type} [DecidableEq ε] [DecidableEq α] :
    (a b : Except ε α) → Decidable (a = b)
  | .error x, .error y =>
    if h : x = y then isTrue (by rw [h])
    else isFalse (fun hc => h (by injection hc))
  | .error _, .ok _ => isFalse (fun hc => by injection hc)
  | .ok _, .error _ => isFalse (fun hc => by injection hc)
  | .ok x, .ok y =>
    if h : x = y then isTrue (by rw [h])
    else isFalse (fun hc => h (by injection hc))

instance {ε α : Type} [DecidableEq ε] [DecidableEq α] :
    DecidableEq (Except ε α) := exceptDecEq

/-- `s.startswith(p)` at code-point granularity (kernel-reducible, unlike
`String.startsWith`). -/
def strStartsWith (s p : String) : Bool := p.data.isPrefixOf s.data

/-- `s.endswith(p)` at code-point granularity. -/
def strEndsWith (s p : String) : Bool := p.data.isSuffixOf s.data

/-- `s.lower()` (ASCII range, which covers the extension set). -/
def strToLower (s : String) : String := ⟨s.data.map Char.toLower⟩

/-! ## Python string helpers

`str.split()` with no argument (used for `word_count`) splits on runs of
whitespace and drops empty tokens.  `pyIsSpace` models the characters
Python's `str.split()` / regex `\s` treat as whitespace (ASCII whitespace
plus the common Unicode spaces). -/

def pyIsSpace (c : Char) : Bool :=
  c = ' ' || c = '\t' || c = '\n' || c = '\r' ||
  c.val = 11 || c.val = 12 ||
  c.val = 0x1c || c.val = 0x1d || c.val = 0x1e || c.val = 0x1f ||
  c.val = 0x85 || c.val = 0xa0 || c.val = 0x1680 ||
  (0x2000 ≤ c.val && c.val ≤ 0x200a) ||
  c.val = 0x2028 || c.val = 0x2029 || c.val = 0x202f ||
  c.val = 0x205f || c.val = 0x3000

/-- `text.split()` in Python: maximal runs of non-whitespace characters.
`cur` is the (reversed) partial token being accumulated. -/
def pySplitWsAux (cur : List Char) : List Char → List (List Char)
  | [] => if cur = [] then [] else [cur.reverse]
  | c :: cs =>
    if pyIsSpace c then
      if cur = [] then pySplitWsAux [] cs
      else cur.reverse :: pySplitWsAux [] cs
    else pySplitWsAux (c :: cur) cs

def pySplitWs (l : List Char) : List (List Char) := pySplitWsAux [] l

/-- Spec-side notion: the number of whitespace-delimited tokens, counted as
transitions from whitespace (or the start) into a non-whitespace run.
`inTok` records whether we are inside a token already counted. -/
def countTokens : Bool → List Char → Nat
  | _, [] => 0
  | inTok, c :: cs =>
    if pyIsSpace c then countTokens false cs
    else (if inTok then 0 else 1) + countTokens true cs

/-- `len(text.split())` as both backends compute it
(`transcript_service.py` lines 124 and 160). -/
def openaiWordCount (t : String) : Nat := (pySplitWs t.data).length

def localWordCount (t : String) : Nat := (pySplitWs t.data).length

theorem pySplitWsAux_length (l : List Char) :
    ∀ cur, (pySplitWsAux cur l).length =
      countTokens (cur ≠ []) l + (if cur = [] then 0 else 1) := by
  induction l with
  | nil =>
    intro cur
    by_cases h : cur = [] <;> simp [pySplitWsAux, countTokens, h]
  | cons c cs ih =>
    intro cur
    by_cases hs : pyIsSpace c
    · by_cases h : cur = [] <;>
        simp [pySplitWsAux, countTokens, hs, h, ih, Nat.add_comm]
    · by_cases h : cur = [] <;>
        simp [pySplitWsAux, countTokens, hs, h, ih, Nat.add_comm]

theorem pySplitWs_length (l : List Char) :
    (pySplitWs l).length = countTokens false l := by
  simpa [pySplitWs] using pySplitWsAux_length l []

/-! ## Filename sanitizer (`YouTubeService._sanitize_filename`) -/

/-- The Windows-invalid characters removed by the sanitizer:
`<>:"/\|?*`. -/
def invalidChars : List Char := ['<', '>', ':', '"', '/', '\\', '|', '?', '*']

/-- Characters collapsed to a single dash by `re.sub(r'[\s\-]+', '-', ...)`. -/
def isSpaceOrDash (c : Char) : Bool := pyIsSpace c || c = '-'

/-- `re.sub(r'[\s\-]+', '-', s)`: every maximal run of whitespace/dashes
becomes one `'-'`.  `inRun` records whether the previous character was part
of such a run. -/
def collapseDash : Bool → List Char → List Char
  | _, [] => []
  | inRun, c :: cs =>
    if isSpaceOrDash c then
      if inRun then collapseDash true cs
      else '-' :: collapseDash true cs
    else c :: collapseDash false cs

/-- Characters stripped from both ends by `strip('. ')`. -/
def isDotSpace (c : Char) : Bool := c = '.' || c = ' '

/-- `YouTubeService._sanitize_filename` (youtube_service.py lines 274-294):
return "unknown" on falsy input; drop the Windows-invalid characters; drop
non-printable characters (`ord ≤ 31`); collapse whitespace/dash runs to a
single dash; strip leading/trailing dots and spaces; truncate to 100
characters, with "unknown" if everything was stripped. -/
def sanitize_filename (filename : String) : String :=
  if filename = "" then "unknown"
  else
    let s1 := filename.data.filter (fun c => !invalidChars.contains c)
    let s2 := s1.filter (fun c => 31 < c.toNat)
    let s3 := collapseDash false s2
    let s4 := ((s3.dropWhile isDotSpace).reverse.dropWhile isDotSpace).reverse
    if s4 = [] then "unknown" else ⟨s4.take 100⟩

/-- A character acceptable in a sanitized filename: not one of the
Windows-invalid characters and printable (code point above 31). -/
def goodChar (c : Char) : Bool := !invalidChars.contains c && 31 < c.toNat

theorem collapseDash_mem {c : Char} :
    ∀ (b : Bool) (l : List Char), c ∈ collapseDash b l → c ∈ l ∨ c = '-' := by
  intro b l
  induction l generalizing b with
  | nil => simp [collapseDash]
  | cons d ds ih =>
    intro h
    unfold collapseDash at h
    split at h
    · split at h
      · rcases ih true h with h' | h'
        · exact Or.inl (List.mem_cons_of_mem _ h')
        · exact Or.inr h'
      · rcases List.mem_cons.mp h with h | h
        · exact Or.inr h
        · rcases ih true h with h' | h'
          · exact Or.inl (List.mem_cons_of_mem _ h')
          · exact Or.inr h'
    · rcases List.mem_cons.mp h with h | h
      · exact Or.inl (by simp [h])
      · rcases ih false h with h' | h'
        · exact Or.inl (List.mem_cons_of_mem _ h')
        · exact Or.inr h'

theorem sanitize_goodChar {s : String} {c : Char} :
    c ∈ (sanitize_filename s).data → goodChar c = true := by
  intro hc
  unfold sanitize_filename at hc
  by_cases h0 : s = ""
  · simp only [h0, if_true] at hc
    fin_cases hc <;> decide
  · simp only [h0, if_false] at hc
    set s1 := s.data.filter (fun c => !invalidChars.contains c) with hs1
    set s2 := s1.filter (fun c => 31 < c.toNat) with hs2
    set s3 := collapseDash false s2 with hs3
    set s4 := ((s3.dropWhile isDotSpace).reverse.dropWhile isDotSpace).reverse
      with hs4
    by_cases h4 : s4 = []
    · simp only [h4, if_true] at hc
      fin_cases hc <;> decide
    · simp only [h4, if_false] at hc
      have hc4 : c ∈ s4 := List.mem_of_mem_take hc
      have hc3 : c ∈ s3 := by
        have h1 : c ∈ (s3.dropWhile isDotSpace).reverse.dropWhile isDotSpace := by
          simpa [hs4, List.mem_reverse] using hc4
        have h2 := (List.dropWhile_sublist isDotSpace
          (l := (s3.dropWhile isDotSpace).reverse)).subset h1
        have h3 := (List.mem_reverse).mp h2
        exact (List.dropWhile_sublist isDotSpace (l := s3)).subset h3
      rcases collapseDash_mem false s2 hc3 with h | h
      · have h2 := List.mem_filter.mp h
        have h1 := List.mem_filter.mp h2.1
        simp only [goodChar, Bool.and_eq_true]
        exact ⟨h1.2, h2.2⟩
      · subst h; decide

theorem sanitize_ne_empty (s : String) : sanitize_filename s ≠ "" := by
  unfold sanitize_filename
  by_cases h0 : s = ""
  · simp [h0]
  · simp only [h0, if_false]
    set s4 := ((((s.data.filter (fun c => !invalidChars.contains c)).filter
      (fun c => 31 < c.toNat) |> collapseDash false).dropWhile
        isDotSpace).reverse.dropWhile isDotSpace).reverse with hs4
    by_cases h4 : s4 = []
    · simp [h4]
    · simp only [h4, if_false]
      intro hcontra
      have : s4.take 100 = [] := by
        have := congrArg String.data hcontra
        simpa using this
      rcases List.take_eq_nil_iff.mp this with h | h
      · exact absurd h (by decide)
      · exact h4 h

theorem sanitize_length (s : String) : (sanitize_filename s).length ≤ 100 := by
  unfold sanitize_filename
  by_cases h0 : s = ""
  · simp [h0, String.length]
  · simp only [h0, if_false]
    set s4 := ((((s.data.filter (fun c => !invalidChars.contains c)).filter
      (fun c => 31 < c.toNat) |> collapseDash false).dropWhile
        isDotSpace).reverse.dropWhile isDotSpace).reverse with hs4
    by_cases h4 : s4 = []
    · simp [h4, String.length]
    · simp only [h4, if_false]
      have : (String.mk (s4.take 100)).length = (s4.take 100).length := rfl
      rw [this]
      exact le_trans (List.length_take_le 100 s4) (le_refl 100)

/-! ## File Resolver (`YouTubeService._find_audio_file`)

The download directory is modelled as a list of entries in the order the
filesystem enumerates them (`Path.glob` iterates in OS order; the code
takes the first hit, so list order stands in for enumeration order). -/

structure FSFile where
  name : String
  mtime : Int
  isFile : Bool
  deriving DecidableEq, Repr

/-- The accepted audio extensions (youtube_service.py line 233). -/
def audioExtensions : List String :=
  [".m4a", ".mp3", ".webm", ".ogg", ".opus", ".aac", ".wav"]

/-- `any(file.name.lower().endswith(ext) for ext in audio_extensions)`. -/
def hasAudioExt (n : String) : Bool :=
  audioExtensions.any (fun ext => strEndsWith (strToLower n) ext)

/-- Matches the primary glob `"{video_id}_*"`. -/
def hasIdPrefix (videoId n : String) : Bool :=
  strStartsWith n (videoId ++ "_")

/-- A file the primary (id-prefix) strategy would return. -/
def primaryMatch (videoId : String) (f : FSFile) : Bool :=
  hasIdPrefix videoId f.name && hasAudioExt f.name

/-- A file the recency fallback would return: a regular file with an
accepted extension modified within the last 600 seconds. -/
def recentMatch (now : Int) (f : FSFile) : Bool :=
  f.isFile && hasAudioExt f.name && decide (f.mtime > now - 600)

/-- `YouTubeService._find_audio_file` (youtube_service.py lines 230-272):
first file among the `"{video_id}_"`-prefixed entries with an accepted
audio extension; failing that, the first regular file with an accepted
extension modified within the last 600 seconds; else `none`.
(The primary loop does not require the entry to be a regular file, matching
the source, which checks `is_file` only in the fallback loop.) -/
def find_audio_file (files : List FSFile) (videoId : String) (now : Int) :
    Option String :=
  let matching := files.filter (fun f => hasIdPrefix videoId f.name)
  match matching.find? (fun f => hasAudioExt f.name) with
  | some f => some f.name
  | none =>
    match files.find? (recentMatch now) with
    | some f => some f.name
    | none => none

theorem find?_filter_bool {α : Type} (xs : List α) (p q : α → Bool) :
    (xs.filter p).find? q = xs.find? (fun a => p a && q a) := by
  induction xs with
  | nil => rfl
  | cons x xs ih =>
    by_cases hp : p x <;> by_cases hq : q x <;>
      simp [List.filter_cons, hp, hq, ih, List.find?_cons]

theorem find_audio_file_primary (files : List FSFile) (videoId : String)
    (now : Int) (l₁ l₂ : List FSFile) (f : FSFile)
    (hsplit : files = l₁ ++ f :: l₂)
    (hf : primaryMatch videoId f = true)
    (hbefore : ∀ g ∈ l₁, primaryMatch videoId g = false) :
    find_audio_file files videoId now = some f.name := by
  have hfind : (files.filter (fun f => hasIdPrefix videoId f.name)).find?
      (fun f => hasAudioExt f.name) = some f := by
    rw [find?_filter_bool, hsplit, List.find?_append]
    have hnone : l₁.find?
        (fun a => hasIdPrefix videoId a.name && hasAudioExt a.name) = none := by
      rw [List.find?_eq_none]
      intro g hg
      simpa [primaryMatch] using hbefore g hg
    rw [hnone]
    simp only [Option.none_or]
    exact List.find?_cons_of_pos _ (by simpa [primaryMatch] using hf)
  simp [find_audio_file, hfind]

theorem find_audio_file_fallback_none (files : List FSFile)
    (videoId : String) (now : Int)
    (hnoprim : ∀ f ∈ files, primaryMatch videoId f = false)
    (hnorec : ∀ f ∈ files, recentMatch now f = false) :
    find_audio_file files videoId now = none := by
  have h1 : (files.filter (fun f => hasIdPrefix videoId f.name)).find?
      (fun f => hasAudioExt f.name) = none := by
    rw [find?_filter_bool, List.find?_eq_none]
    intro g hg
    simpa [primaryMatch] using hnoprim g hg
  have h2 : files.find? (recentMatch now) = none := by
    rw [List.find?_eq_none]
    intro g hg
    simp [hnorec g hg]
  simp [find_audio_file, h1, h2]

theorem find_audio_file_fallback_found (files : List FSFile)
    (videoId : String) (now : Int)
    (hnoprim : ∀ f ∈ files, primaryMatch videoId f = false)
    (hrec : ∃ f ∈ files, recentMatch now f = true) :
    ∃ f ∈ files, recentMatch now f = true ∧
      find_audio_file files videoId now = some f.name := by
  have h1 : (files.filter (fun f => hasIdPrefix videoId f.name)).find?
      (fun f => hasAudioExt f.name) = none := by
    rw [find?_filter_bool, List.find?_eq_none]
    intro g hg
    simpa [primaryMatch] using hnoprim g hg
  have hsome : (files.find? (recentMatch now)).isSome := by
    rw [List.find?_isSome]
    exact hrec
  rcases Option.isSome_iff_exists.mp hsome with ⟨f, hf⟩
  refine ⟨f, List.mem_of_find?_eq_some hf, List.find?_some hf, ?_⟩
  simp [find_audio_file, h1, hf]

/-! ## Acquisition (`YouTubeService.download_video`)

The claim-relevant columns of the `Video` row (models.py).  The external
effects — the extractor's metadata call, the download call, the file
resolver's answer, and the downloaded file's existence and size — are
inputs in `DLEnv`.  Each `db.commit()` appends the row's state to a trace,
so the trace holds every record state the operation produced or mutated. -/

structure Video where
  id : String
  title : String
  url : String
  duration : Nat
  audio_path : Option String
  status : String
  deriving DecidableEq, Repr

structure MediaInfo where
  title : String
  duration : Nat
  deriving DecidableEq, Repr

structure DLEnv where
  videoId : String
  url : String
  infoResult : Except String MediaInfo
  downloadResult : Except String Unit
  foundAudio : Option String
  fileExists : Bool
  fileSize : Nat
  deriving Repr

/-- `s[:n]` in Python: the first `n` code points. -/
def pyTake (s : String) (n : Nat) : String := ⟨s.data.take n⟩

/-- The record first committed: placeholder title, status "processing",
duration at its column default 0, no audio path (lines 78-85). -/
def initialVideo (env : DLEnv) : Video :=
  { id := env.videoId, title := "Processing...", url := env.url,
    duration := 0, audio_path := none, status := "processing" }

/-- The error-handler update (lines 218-224): status "error", title
replaced by `"Error: " + str(e)[:100]`. -/
def errorUpdate (v : Video) (msg : String) : Video :=
  { v with status := "error", title := "Error: " ++ pyTake msg 100 }

structure DLOut where
  trace : List Video
  final : Video
  result : Except String Video
  deriving Repr

/-- One failing run's bookkeeping: the states committed so far plus the
error-handler commit, and the re-raised exception (lines 213-228). -/
def dlFail (committed : List Video) (v : Video) (msg : String) : DLOut :=
  { trace := committed ++ [errorUpdate v msg],
    final := errorUpdate v msg,
    result := .error msg }

/-- `YouTubeService.download_video` (youtube_service.py lines 68-228) at
commit granularity: create the `processing` record; extract metadata and
commit title/duration; download; resolve the audio file; check existence
and non-emptiness; commit audio path + status "completed".  Any failure
runs the error handler (status "error", truncated message into `title`)
and re-raises. -/
def download_video (env : DLEnv) : DLOut :=
  let v0 := initialVideo env
  match env.infoResult with
  | .error e => dlFail [v0] v0 ("Could not extract video information: " ++ e)
  | .ok info =>
    let v1 := { v0 with title := info.title, duration := info.duration }
    match env.downloadResult with
    | .error e => dlFail [v0, v1] v1 ("Download failed: " ++ e)
    | .ok _ =>
      match env.foundAudio with
      | none => dlFail [v0, v1] v1 "Failed to find downloaded audio file"
      | some path =>
        if ¬ env.fileExists then
          dlFail [v0, v1] v1 ("Audio file does not exist: " ++ path)
        else if env.fileSize = 0 then
          dlFail [v0, v1] v1 "Downloaded audio file is empty"
        else
          let v2 := { v1 with audio_path := some path, status := "completed" }
          { trace := [v0, v1, v2], final := v2, result := .ok v2 }

theorem download_video_trace_mem (env : DLEnv) (v : Video)
    (hv : v ∈ (download_video env).trace) :
    (v.audio_path.isSome ↔ v.status = "completed") ∧
      (v.status = "error" → v.audio_path = none) := by
  have base : ∀ w : Video, w.audio_path = none → w.status = "processing" →
      (w.audio_path.isSome ↔ w.status = "completed") ∧
        (w.status = "error" → w.audio_path = none) := by
    intro w h1 h2
    rw [h1, h2]
    simp
  have herr : ∀ (w : Video) (m : String), w.audio_path = none →
      ((errorUpdate w m).audio_path.isSome ↔
          (errorUpdate w m).status = "completed") ∧
        ((errorUpdate w m).status = "error" →
          (errorUpdate w m).audio_path = none) := by
    intro w m h1
    simp [errorUpdate, h1]
  have hsucc : ∀ (w : Video) (p : String), w.audio_path = some p →
      w.status = "completed" →
      (w.audio_path.isSome ↔ w.status = "completed") ∧
        (w.status = "error" → w.audio_path = none) := by
    intro w p h1 h2
    rw [h1, h2]
    simp
  unfold download_video at hv
  rcases env with ⟨vid, url, info, dl, found, fex, fsz⟩
  dsimp only at hv
  rcases info with e | i
  · simp only [dlFail, List.mem_append, List.mem_cons, List.not_mem_nil,
      or_false, or_assoc] at hv
    rcases hv with h | h
    · subst h; exact base _ rfl rfl
    · subst h; exact herr _ _ rfl
  · rcases dl with e | u
    · simp only [dlFail, List.mem_append, List.mem_cons, List.not_mem_nil,
        or_false, or_assoc] at hv
      rcases hv with h | h | h
      · subst h; exact base _ rfl rfl
      · subst h; exact base _ rfl rfl
      · subst h; exact herr _ _ rfl
    · rcases found with _ | path
      · simp only [dlFail, List.mem_append, List.mem_cons, List.not_mem_nil,
          or_false, or_assoc] at hv
        rcases hv with h | h | h
        · subst h; exact base _ rfl rfl
        · subst h; exact base _ rfl rfl
        · subst h; exact herr _ _ rfl
      · dsimp only at hv
        by_cases hfe : fex = true
        · rw [if_neg (fun hc => hc hfe)] at hv
          by_cases hsz : fsz = 0
          · rw [if_pos hsz] at hv
            simp only [dlFail, List.mem_append, List.mem_cons,
              List.not_mem_nil, or_false, or_assoc] at hv
            rcases hv with h | h | h
            · subst h; exact base _ rfl rfl
            · subst h; exact base _ rfl rfl
            · subst h; exact herr _ _ rfl
          · rw [if_neg hsz] at hv
            simp only [List.mem_cons, List.not_mem_nil, or_false] at hv
            rcases hv with h | h | h
            · subst h; exact base _ rfl rfl
            · subst h; exact base _ rfl rfl
            · subst h; exact hsucc _ path rfl rfl
        · rw [if_pos hfe] at hv
          simp only [dlFail, List.mem_append, List.mem_cons,
            List.not_mem_nil, or_false, or_assoc] at hv
          rcases hv with h | h | h
          · subst h; exact base _ rfl rfl
          · subst h; exact base _ rfl rfl
          · subst h; exact herr _ _ rfl

theorem download_video_error_state (env : DLEnv) (msg : String)
    (hres : (download_video env).result = .error msg) :
    (download_video env).final.status = "error" ∧
      (download_video env).final.title = "Error: " ++ pyTake msg 100 ∧
      (download_video env).final.title.length ≤ 107 := by
  have hlen : ∀ m : String, ("Error: " ++ pyTake m 100).length ≤ 107 := by
    intro m
    have h2 : ("Error: " : String).length = 7 := rfl
    have h3 : (pyTake m 100).length = (m.data.take 100).length := rfl
    rw [String.length_append, h2, h3]
    have := List.length_take_le 100 m.data
    omega
  unfold download_video at hres ⊢
  rcases env with ⟨vid, url, info, dl, found, fex, fsz⟩
  dsimp only at hres ⊢
  rcases info with e | i
  · simp only [dlFail] at hres ⊢
    cases hres
    exact ⟨rfl, rfl, hlen _⟩
  · rcases dl with e | u
    · simp only [dlFail] at hres ⊢
      cases hres
      exact ⟨rfl, rfl, hlen _⟩
    · rcases found with _ | path
      · simp only [dlFail] at hres ⊢
        cases hres
        exact ⟨rfl, rfl, hlen _⟩
      · dsimp only at hres ⊢
        by_cases hfe : fex = true
        · rw [if_neg (fun hc => hc hfe)] at hres ⊢
          by_cases hsz : fsz = 0
          · rw [if_pos hsz] at hres ⊢
            simp only [dlFail] at hres ⊢
            cases hres
            exact ⟨rfl, rfl, hlen _⟩
          · rw [if_neg hsz] at hres ⊢
            exact absurd hres (by simp)
        · rw [if_pos hfe] at hres ⊢
          simp only [dlFail] at hres ⊢
          cases hres
          exact ⟨rfl, rfl, hlen _⟩

theorem download_video_metadata_retained (env : DLEnv) (info : MediaInfo)
    (msg : String)
    (hinfo : env.infoResult = .ok info)
    (hres : (download_video env).result = .error msg) :
    (download_video env).final.duration = info.duration ∧
      (download_video env).final.title = "Error: " ++ pyTake msg 100 := by
  unfold download_video at hres ⊢
  rcases env with ⟨vid, url, infoR, dl, found, fex, fsz⟩
  dsimp only at hinfo hres ⊢
  subst hinfo
  rcases dl with e | u
  · simp only [dlFail] at hres ⊢
    cases hres
    exact ⟨rfl, rfl⟩
  · rcases found with _ | path
    · simp only [dlFail] at hres ⊢
      cases hres
      exact ⟨rfl, rfl⟩
    · dsimp only at hres ⊢
      by_cases hfe : fex = true
      · rw [if_neg (fun hc => hc hfe)] at hres ⊢
        by_cases hsz : fsz = 0
        · rw [if_pos hsz] at hres ⊢
          simp only [dlFail] at hres ⊢
          cases hres
          exact ⟨rfl, rfl⟩
        · rw [if_neg hsz] at hres ⊢
          exact absurd hres (by simp)
      · rw [if_pos hfe] at hres ⊢
        simp only [dlFail] at hres ⊢
        cases hres
        exact ⟨rfl, rfl⟩

/-! ## Transcription Router (`TranscriptService.generate_transcript`)

The OpenAI client (configured iff `OPENAI_API_KEY` is set), the local
Whisper model, the filesystem, and the two backends' behaviour are inputs
in `TEnv`.  The output records the returned-or-raised result, the
`Transcript` rows committed, and which backends were invoked, in order. -/

/-- A transcription segment (start, end, text); times are modelled as
integers since no claim depends on their float representation. -/
structure Segment where
  start : Int
  stop : Int
  text : String
  deriving DecidableEq, Repr

/-- What a backend returns on success. -/
structure BackendRaw where
  text : String
  language : String
  segments : List Segment
  deriving DecidableEq, Repr

/-- The claim-relevant columns of the `Transcript` row (models.py). -/
structure TranscriptRec where
  video_id : String
  transcript : String
  language : String
  segments : List Segment
  word_count : Nat
  deriving DecidableEq, Repr

inductive BackendKind
  | hosted
  | local
  deriving DecidableEq, Repr

/-- Failure classification of `generate_transcript`:
`videoNotFound` — "Video not found" (line 49);
`typeError` — `os.path.join(self.download_dir, None)` raises `TypeError`
before the code's own not-found check runs (line 52);
`audioNotFound` — "Audio file not found at: …" (line 56);
`unavailable` — "File too large for OpenAI API and local Whisper not
available" (line 70);
`backendFailure` — an invoked backend raised, and its error propagates. -/
inductive TError
  | videoNotFound
  | typeError
  | audioNotFound (path : String)
  | unavailable
  | backendFailure (k : BackendKind) (msg : String)
  deriving DecidableEq, Repr

structure TEnv where
  videoId : String
  db : String → Option Video
  downloadDir : String
  fileExists : String → Bool
  fileSize : Nat
  hasClient : Bool
  localModel : Bool
  hostedOutcome : Except String BackendRaw
  localOutcome : Except String BackendRaw

/-- `os.path.join` on POSIX for a defined right operand: an absolute right
operand wins, otherwise the parts are joined with a separator. -/
def pathJoin (d s : String) : String :=
  if strStartsWith s "/" then s else if d = "" then s else d ++ "/" ++ s

structure TOut where
  result : Except TError (String × String × List Segment)
  persisted : List TranscriptRec
  calls : List BackendKind

/-- `TranscriptService._generate_openai_transcript` (lines 90-138):
on success, persist a `Transcript` with `word_count = len(text.split())`
and return the dict; any API failure propagates. -/
def generate_openai_transcript (env : TEnv) :
    Except TError (String × String × List Segment) × List TranscriptRec :=
  match env.hostedOutcome with
  | .error e => (.error (.backendFailure .hosted e), [])
  | .ok raw =>
    (.ok (raw.text, raw.language, raw.segments),
      [{ video_id := env.videoId, transcript := raw.text,
         language := raw.language, segments := raw.segments,
         word_count := openaiWordCount raw.text }])

/-- `TranscriptService._generate_local_transcript` (lines 140-181): the
same shape via the local model, with the segments' text stripped. -/
def generate_local_transcript (env : TEnv) :
    Except TError (String × String × List Segment) × List TranscriptRec :=
  match env.localOutcome with
  | .error e => (.error (.backendFailure .local e), [])
  | .ok raw =>
    let segs := raw.segments.map (fun g => { g with text := g.text.trim })
    (.ok (raw.text, raw.language, segs),
      [{ video_id := env.videoId, transcript := raw.text,
         language := raw.language, segments := segs,
         word_count := localWordCount raw.text }])

/-- `TranscriptService.generate_transcript` (transcript_service.py lines
43-88): look up the Video; join the stored `audio_path` onto the download
directory (`TypeError` when it is `NULL`); fail `audioNotFound` when the
path is falsy or the file is missing; route on `file_size > 25 MiB` or a
missing OpenAI client to the local model (or fail `unavailable`);
otherwise try the hosted backend, falling back to the local model exactly
once on failure when it is loaded, else re-raising the hosted error. -/
def generate_transcript (env : TEnv) : TOut :=
  match env.db env.videoId with
  | none => { result := .error .videoNotFound, persisted := [], calls := [] }
  | some video =>
    match video.audio_path with
    | none => { result := .error .typeError, persisted := [], calls := [] }
    | some ap =>
      let audioPath := pathJoin env.downloadDir ap
      if ap = "" || !env.fileExists audioPath then
        { result := .error (.audioNotFound audioPath), persisted := [],
          calls := [] }
      else if env.fileSize > 25 * 1024 * 1024 || !env.hasClient then
        if env.localModel then
          let r := generate_local_transcript env
          { result := r.1, persisted := r.2, calls := [.local] }
        else
          { result := .error .unavailable, persisted := [], calls := [] }
      else
        match generate_openai_transcript env with
        | (.ok x, p) => { result := .ok x, persisted := p, calls := [.hosted] }
        | (.error he, _) =>
          if env.localModel then
            let r := generate_local_transcript env
            { result := r.1, persisted := r.2, calls := [.hosted, .local] }
          else
            { result := .error he, persisted := [], calls := [.hosted] }

theorem generate_transcript_routes_local (env : TEnv) (video : Video)
    (ap : String)
    (hdb : env.db env.videoId = some video)
    (hap : video.audio_path = some ap)
    (hne : ap ≠ "")
    (hex : env.fileExists (pathJoin env.downloadDir ap) = true)
    (hroute : env.fileSize > 25 * 1024 * 1024 ∨ env.hasClient = false) :
    BackendKind.hosted ∉ (generate_transcript env).calls ∧
      (env.localModel = true →
        (generate_transcript env).calls = [BackendKind.local] ∧
        (generate_transcript env).result = (generate_local_transcript env).1) ∧
      (env.localModel = false →
        (generate_transcript env).result = .error .unavailable) := by
  unfold generate_transcript
  rw [hdb]
  dsimp only
  rw [hap]
  dsimp only
  have hc1 : (decide (ap = "") ||
      !env.fileExists (pathJoin env.downloadDir ap)) = false := by
    simp [hne, hex]
  rw [hc1, if_neg Bool.false_ne_true]
  have hc2 : (decide (env.fileSize > 25 * 1024 * 1024) ||
      !env.hasClient) = true := by
    rcases hroute with h | h
    · simp [h]
    · simp [h]
  rw [hc2, if_pos rfl]
  by_cases hlm : env.localModel = true
  · rw [if_pos hlm]
    refine ⟨by dsimp only; decide, fun _ => ⟨rfl, rfl⟩, fun hcontra => ?_⟩
    rw [hlm] at hcontra
    cases hcontra
  · rw [if_neg hlm]
    refine ⟨by dsimp only; decide, fun hcontra => absurd hcontra hlm, fun _ => rfl⟩

theorem generate_transcript_fallback (env : TEnv) (video : Video)
    (ap : String) (e : String)
    (hdb : env.db env.videoId = some video)
    (hap : video.audio_path = some ap)
    (hne : ap ≠ "")
    (hex : env.fileExists (pathJoin env.downloadDir ap) = true)
    (hsize : env.fileSize ≤ 25 * 1024 * 1024)
    (hcl : env.hasClient = true)
    (hfail : env.hostedOutcome = .error e) :
    (env.localModel = true →
        (generate_transcript env).calls = [BackendKind.hosted, BackendKind.local] ∧
        (generate_transcript env).result = (generate_local_transcript env).1 ∧
        (generate_transcript env).persisted = (generate_local_transcript env).2) ∧
      (env.localModel = false →
        (generate_transcript env).result =
            .error (.backendFailure .hosted e) ∧
        (generate_transcript env).calls = [BackendKind.hosted] ∧
        (generate_transcript env).persisted = []) := by
  unfold generate_transcript
  rw [hdb]
  dsimp only
  rw [hap]
  dsimp only
  have hc1 : (decide (ap = "") ||
      !env.fileExists (pathJoin env.downloadDir ap)) = false := by
    simp [hne, hex]
  rw [hc1, if_neg Bool.false_ne_true]
  have hc2 : (decide (env.fileSize > 25 * 1024 * 1024) ||
      !env.hasClient) = false := by
    simp [hcl, Nat.not_lt.mpr hsize]
  rw [hc2, if_neg Bool.false_ne_true]
  have hopenai : generate_openai_transcript env =
      (.error (.backendFailure .hosted e), []) := by
    unfold generate_openai_transcript
    rw [hfail]
  rw [hopenai]
  dsimp only
  by_cases hlm : env.localModel = true
  · rw [if_pos hlm]
    exact ⟨fun _ => ⟨rfl, rfl, rfl⟩, fun hcontra => absurd hlm (by simp [hcontra])⟩
  · rw [if_neg hlm]
    exact ⟨fun hcontra => absurd hcontra hlm, fun _ => ⟨rfl, rfl, rfl⟩⟩

theorem openai_persisted_word_count (env : TEnv) (r : TranscriptRec)
    (hr : r ∈ (generate_openai_transcript env).2) :
    r.word_count = countTokens false r.transcript.data := by
  unfold generate_openai_transcript at hr
  split at hr
  · simp at hr
  · simp only [List.mem_singleton] at hr
    subst hr
    exact pySplitWs_length _

theorem local_persisted_word_count (env : TEnv) (r : TranscriptRec)
    (hr : r ∈ (generate_local_transcript env).2) :
    r.word_count = countTokens false r.transcript.data := by
  unfold generate_local_transcript at hr
  split at hr
  · simp at hr
  · simp only [List.mem_singleton] at hr
    subst hr
    exact pySplitWs_length _

theorem generate_transcript_word_count (env : TEnv) (r : TranscriptRec)
    (hr : r ∈ (generate_transcript env).persisted) :
    r.word_count = countTokens false r.transcript.data := by
  unfold generate_transcript at hr
  split at hr
  · simp at hr
  · split at hr
    · simp at hr
    · dsimp only at hr
      split at hr
      · simp at hr
      · split at hr
        · split at hr
          · exact local_persisted_word_count env r hr
          · simp at hr
        · split at hr
          · rename_i x p heq
            have hx : r ∈ (generate_openai_transcript env).2 := by
              rw [heq]
              exact hr
            exact openai_persisted_word_count env r hx
          · split at hr
            · exact local_persisted_word_count env r hr
            · simp at hr

/-! ## Concrete environments used as witnesses and counterexamples -/

/-- A successful acquisition run. -/
def envOkDL : DLEnv :=
  { videoId := "vid1", url := "https://youtu.be/x",
    infoResult := .ok ⟨"My Title", 42⟩, downloadResult := .ok (),
    foundAudio := some "/dl/vid1_My Title.m4a", fileExists := true,
    fileSize := 1000 }

/-- An acquisition whose download step fails with a 100-character error. -/
def longFailureEnv : DLEnv :=
  { videoId := "vid7", url := "u7", infoResult := .ok ⟨"T7", 5⟩,
    downloadResult := .error (String.mk (List.replicate 100 'x')),
    foundAudio := none, fileExists := false, fileSize := 0 }

/-- An acquisition that persists metadata and then fails to download. -/
def metaFailEnv : DLEnv :=
  { videoId := "vid8", url := "u8", infoResult := .ok ⟨"My Title", 42⟩,
    downloadResult := .error "boom", foundAudio := none,
    fileExists := false, fileSize := 0 }

/-- A completed job with an absolute artifact path, as `download_video`
stores it. -/
def completedVideo : Video :=
  { id := "job-ok", title := "T", url := "u2", duration := 10,
    audio_path := some "/dl/job-ok_T.m4a", status := "completed" }

/-- A failed job: status "error", `audio_path` NULL. -/
def errorJobVideo : Video :=
  { id := "job-err", title := "Error: boom", url := "u1", duration := 0,
    audio_path := none, status := "error" }

/-- Transcription requested for a job whose `audio_path` is NULL. -/
def envNullPath : TEnv :=
  { videoId := "job-err",
    db := fun i => if i = "job-err" then some errorJobVideo else none,
    downloadDir := "downloads", fileExists := fun _ => false, fileSize := 0,
    hasClient := true, localModel := true,
    hostedOutcome := .error "api down",
    localOutcome := .ok ⟨"hello", "en", []⟩ }

/-- A 30 MiB artifact with the hosted backend configured and the local
model loaded. -/
def env30 : TEnv :=
  { videoId := "job-ok",
    db := fun i => if i = "job-ok" then some completedVideo else none,
    downloadDir := "downloads", fileExists := fun _ => true,
    fileSize := 30 * 1024 * 1024, hasClient := true, localModel := true,
    hostedOutcome := .ok ⟨"hosted text", "en", []⟩,
    localOutcome := .ok ⟨"local text", "en", []⟩ }

/-- A 5 MiB artifact, hosted backend configured but failing, local model
loaded. -/
def env5 : TEnv :=
  { videoId := "job-ok",
    db := fun i => if i = "job-ok" then some completedVideo else none,
    downloadDir := "downloads", fileExists := fun _ => true,
    fileSize := 5 * 1024 * 1024, hasClient := true, localModel := true,
    hostedOutcome := .error "rate limited",
    localOutcome := .ok ⟨"local transcript", "en", []⟩ }

/-- A small artifact with no API key: routed to the local model, which
produces a four-word transcript. -/
def envLocalOk : TEnv :=
  { videoId := "job-ok",
    db := fun i => if i = "job-ok" then some completedVideo else none,
    downloadDir := "downloads", fileExists := fun _ => true, fileSize := 100,
    hasClient := false, localModel := true,
    hostedOutcome := .error "no api key",
    localOutcome := .ok ⟨"hello brave new world", "en", []⟩ }

def exampleDirC5 : List FSFile :=
  [⟨"abc_video.m4a", 0, true⟩, ⟨"xyz_other.mp3", 0, true⟩]

def exampleDirC6a : List FSFile := [⟨"other_song.mp3", 970, true⟩]

def exampleDirC6b : List FSFile := [⟨"old_song.mp3", 300, true⟩]

/-! ## The claims -/

/-- C1: every Job record produced or mutated by `download_video` (every
committed state) has `audio_path` non-null iff its status is "completed";
in particular every state with status "error" has `audio_path` null. -/
theorem claim_C1 (env : DLEnv) (v : Video)
    (hv : v ∈ (download_video env).trace) :
    (v.audio_path.isSome ↔ v.status = "completed") ∧
      (v.status = "error" → v.audio_path = none) :=
  download_video_trace_mem env v hv

theorem claim_C1_witness :
    initialVideo envOkDL ∈ (download_video envOkDL).trace ∧
      (((initialVideo envOkDL).audio_path.isSome ↔
          (initialVideo envOkDL).status = "completed") ∧
        ((initialVideo envOkDL).status = "error" →
          (initialVideo envOkDL).audio_path = none)) :=
  ⟨by decide, claim_C1 envOkDL (initialVideo envOkDL) (by decide)⟩

/-- C2: for a Job whose `audio_path` is NULL, `generate_transcript` does
not fail with its not-found error: `os.path.join(self.download_dir, None)`
raises `TypeError` on line 52 before the not-found check on line 55 can
run.  No Transcript is persisted and no backend is called, but the failure
class diverges from the claimed (and intended) not-found error. -/
theorem claim_C2_code_bug :
    (generate_transcript envNullPath).result = .error .typeError ∧
      (generate_transcript envNullPath).persisted = [] ∧
      (generate_transcript envNullPath).calls = [] := by
  decide

/-- C3: for a completed Job whose artifact exists, a file over 25 MiB or a
missing hosted credential routes transcription to the local backend with
no hosted call; with no local backend either, it fails `unavailable`. -/
theorem claim_C3 (env : TEnv) (video : Video) (ap : String)
    (hdb : env.db env.videoId = some video)
    (hap : video.audio_path = some ap)
    (hne : ap ≠ "")
    (hex : env.fileExists (pathJoin env.downloadDir ap) = true)
    (hroute : env.fileSize > 25 * 1024 * 1024 ∨ env.hasClient = false) :
    BackendKind.hosted ∉ (generate_transcript env).calls ∧
      (env.localModel = true →
        (generate_transcript env).calls = [BackendKind.local] ∧
        (generate_transcript env).result = (generate_local_transcript env).1) ∧
      (env.localModel = false →
        (generate_transcript env).result = .error .unavailable) :=
  generate_transcript_routes_local env video ap hdb hap hne hex hroute

theorem claim_C3_witness :
    env30.db env30.videoId = some completedVideo ∧
      completedVideo.audio_path = some "/dl/job-ok_T.m4a" ∧
      "/dl/job-ok_T.m4a" ≠ "" ∧
      env30.fileExists (pathJoin env30.downloadDir "/dl/job-ok_T.m4a") = true ∧
      (env30.fileSize > 25 * 1024 * 1024 ∨ env30.hasClient = false) ∧
      (BackendKind.hosted ∉ (generate_transcript env30).calls ∧
        (env30.localModel = true →
          (generate_transcript env30).calls = [BackendKind.local] ∧
          (generate_transcript env30).result =
            (generate_local_transcript env30).1) ∧
        (env30.localModel = false →
          (generate_transcript env30).result = .error .unavailable)) :=
  ⟨by decide, by decide, by decide, rfl, Or.inl (by decide),
    claim_C3 env30 completedVideo "/dl/job-ok_T.m4a" (by decide) (by decide)
      (by decide) rfl (Or.inl (by decide))⟩

/-- C4: for a transcription that attempts the hosted backend (≤ 25 MiB,
credential configured), a hosted failure triggers exactly one local
fallback whose result is returned when the local model is loaded; with no
local model the hosted failure propagates unchanged. -/
theorem claim_C4 (env : TEnv) (video : Video) (ap : String) (e : String)
    (hdb : env.db env.videoId = some video)
    (hap : video.audio_path = some ap)
    (hne : ap ≠ "")
    (hex : env.fileExists (pathJoin env.downloadDir ap) = true)
    (hsize : env.fileSize ≤ 25 * 1024 * 1024)
    (hcl : env.hasClient = true)
    (hfail : env.hostedOutcome = .error e) :
    (env.localModel = true →
        (generate_transcript env).calls =
            [BackendKind.hosted, BackendKind.local] ∧
        (generate_transcript env).result = (generate_local_transcript env).1 ∧
        (generate_transcript env).persisted =
          (generate_local_transcript env).2) ∧
      (env.localModel = false →
        (generate_transcript env).result =
            .error (.backendFailure .hosted e) ∧
        (generate_transcript env).calls = [BackendKind.hosted] ∧
        (generate_transcript env).persisted = []) :=
  generate_transcript_fallback env video ap e hdb hap hne hex hsize hcl hfail

theorem claim_C4_witness :
    env5.db env5.videoId = some completedVideo ∧
      completedVideo.audio_path = some "/dl/job-ok_T.m4a" ∧
      "/dl/job-ok_T.m4a" ≠ "" ∧
      env5.fileExists (pathJoin env5.downloadDir "/dl/job-ok_T.m4a") = true ∧
      env5.fileSize ≤ 25 * 1024 * 1024 ∧
      env5.hasClient = true ∧
      env5.hostedOutcome = .error "rate limited" ∧
      ((env5.localModel = true →
          (generate_transcript env5).calls =
              [BackendKind.hosted, BackendKind.local] ∧
          (generate_transcript env5).result =
            (generate_local_transcript env5).1 ∧
          (generate_transcript env5).persisted =
            (generate_local_transcript env5).2) ∧
        (env5.localModel = false →
          (generate_transcript env5).result =
              .error (.backendFailure .hosted "rate limited") ∧
          (generate_transcript env5).calls = [BackendKind.hosted] ∧
          (generate_transcript env5).persisted = [])) :=
  ⟨by decide, by decide, by decide, rfl, by decide, by decide, by decide,
    claim_C4 env5 completedVideo "/dl/job-ok_T.m4a" "rate limited"
      (by decide) (by decide) (by decide) rfl (by decide) (by decide)
      (by decide)⟩

/-- C5: the File Resolver returns the first `"{job_id}_"`-prefixed file
with an accepted extension; with no prefix match and no recent candidate
it returns `none`.  On `{"abc_video.m4a", "xyz_other.mp3"}` resolving for
"abc" yields "abc_video.m4a" and resolving for "nomatch" (no recent
files) yields `none`. -/
theorem claim_C5 :
    (∀ (files : List FSFile) (videoId : String) (now : Int)
        (l₁ l₂ : List FSFile) (f : FSFile),
        files = l₁ ++ f :: l₂ →
        primaryMatch videoId f = true →
        (∀ g ∈ l₁, primaryMatch videoId g = false) →
        find_audio_file files videoId now = some f.name) ∧
      (∀ (files : List FSFile) (videoId : String) (now : Int),
        (∀ f ∈ files, primaryMatch videoId f = false) →
        (∀ f ∈ files, recentMatch now f = false) →
        find_audio_file files videoId now = none) ∧
      find_audio_file exampleDirC5 "abc" 10000 = some "abc_video.m4a" ∧
      find_audio_file exampleDirC5 "nomatch" 10000 = none := by
  refine ⟨?_, ?_, by decide, by decide⟩
  · intro files videoId now l₁ l₂ f hsplit hf hbefore
    exact find_audio_file_primary files videoId now l₁ l₂ f hsplit hf hbefore
  · intro files videoId now hnp hnr
    exact find_audio_file_fallback_none files videoId now hnp hnr

theorem claim_C5_witness :
    exampleDirC5 =
        [] ++ (⟨"abc_video.m4a", 0, true⟩ : FSFile) ::
          [⟨"xyz_other.mp3", 0, true⟩] ∧
      primaryMatch "abc" ⟨"abc_video.m4a", 0, true⟩ = true ∧
      (∀ g ∈ ([] : List FSFile), primaryMatch "abc" g = false) ∧
      find_audio_file exampleDirC5 "abc" 10000 = some "abc_video.m4a" :=
  ⟨by decide, by decide, by decide,
    claim_C5.1 exampleDirC5 "abc" 10000 [] [⟨"xyz_other.mp3", 0, true⟩]
      ⟨"abc_video.m4a", 0, true⟩ (by decide) (by decide) (by decide)⟩

/-- C6: with no id-prefixed match, the resolver returns a regular file
with an accepted extension modified within the last 600 seconds when one
exists, and returns `none` when every candidate is older than 600
seconds.  A file modified 30 s ago is returned; a sole candidate modified
700 s ago yields `none`. -/
theorem claim_C6 :
    (∀ (files : List FSFile) (videoId : String) (now : Int),
        (∀ f ∈ files, primaryMatch videoId f = false) →
        (∃ f ∈ files, recentMatch now f = true) →
        ∃ f ∈ files, recentMatch now f = true ∧
          find_audio_file files videoId now = some f.name) ∧
      (∀ (files : List FSFile) (videoId : String) (now : Int),
        (∀ f ∈ files, primaryMatch videoId f = false) →
        (∀ f ∈ files, f.isFile = true → hasAudioExt f.name = true →
          now - f.mtime > 600) →
        find_audio_file files videoId now = none) ∧
      find_audio_file exampleDirC6a "job1" 1000 = some "other_song.mp3" ∧
      find_audio_file exampleDirC6b "job1" 1000 = none := by
  refine ⟨?_, ?_, by decide, by decide⟩
  · intro files videoId now hnp hex
    exact find_audio_file_fallback_found files videoId now hnp hex
  · intro files videoId now hnp hold
    refine find_audio_file_fallback_none files videoId now hnp ?_
    intro f hf
    unfold recentMatch
    by_cases h1 : f.isFile = true
    · by_cases h2 : hasAudioExt f.name = true
      · have h3 := hold f hf h1 h2
        have h4 : ¬ (now - 600 < f.mtime) := by omega
        simp [h1, h2, h4]
      · have h2' : hasAudioExt f.name = false := by
          cases hx : hasAudioExt f.name
          · rfl
          · exact absurd hx h2
        simp [h1, h2']
    · have h1' : f.isFile = false := by
        cases hx : f.isFile
        · rfl
        · exact absurd hx h1
      simp [h1']

theorem claim_C6_witness :
    (∀ f ∈ exampleDirC6a, primaryMatch "job1" f = false) ∧
      (∃ f ∈ exampleDirC6a, recentMatch 1000 f = true) ∧
      (∃ f ∈ exampleDirC6a, recentMatch 1000 f = true ∧
        find_audio_file exampleDirC6a "job1" 1000 = some f.name) :=
  ⟨by decide, ⟨⟨"other_song.mp3", 970, true⟩, by decide, by decide⟩,
    claim_C6.1 exampleDirC6a "job1" 1000 (by decide)
      ⟨⟨"other_song.mp3", 970, true⟩, by decide, by decide⟩⟩

/-- C7 as stated is false: the error handler stores
`"Error: " + str(e)[:100]` in the title, which reaches 107 characters for
a long failure text — more than the claimed 100-character bound. -/
theorem claim_C7_counterexample :
    (download_video longFailureEnv).result =
        .error ("Download failed: " ++ String.mk (List.replicate 100 'x')) ∧
      (download_video longFailureEnv).final.status = "error" ∧
      (download_video longFailureEnv).final.title.length = 107 ∧
      ¬ (download_video longFailureEnv).final.title.length ≤ 100 := by
  decide

/-- C7 (amended): on any failure after the Job is created, the job ends
with status "error" (never "processing"), stores `"Error: "` followed by
the first 100 characters of the failure text — at most 107 characters in
total — and the failure is re-raised to the caller. -/
theorem claim_C7 (env : DLEnv) (msg : String)
    (hres : (download_video env).result = .error msg) :
    (download_video env).final.status = "error" ∧
      (download_video env).final.title = "Error: " ++ pyTake msg 100 ∧
      (download_video env).final.title.length ≤ 107 :=
  download_video_error_state env msg hres

theorem claim_C7_witness :
    (download_video longFailureEnv).result =
        .error ("Download failed: " ++ String.mk (List.replicate 100 'x')) ∧
      ((download_video longFailureEnv).final.status = "error" ∧
        (download_video longFailureEnv).final.title =
          "Error: " ++
            pyTake ("Download failed: " ++ String.mk (List.replicate 100 'x'))
              100 ∧
        (download_video longFailureEnv).final.title.length ≤ 107) :=
  ⟨by decide,
    claim_C7 longFailureEnv
      ("Download failed: " ++ String.mk (List.replicate 100 'x'))
      (by decide)⟩

/-- C8 as stated is false: after metadata (title "My Title", duration 42)
is persisted and the download step fails, the stored duration still
reflects the metadata but the stored title has been overwritten by the
error message. -/
theorem claim_C8_counterexample :
    metaFailEnv.infoResult = .ok ⟨"My Title", 42⟩ ∧
      (download_video metaFailEnv).result = .error "Download failed: boom" ∧
      (download_video metaFailEnv).final.duration = 42 ∧
      (download_video metaFailEnv).final.title ≠ "My Title" := by
  decide

/-- C8 (amended): when metadata was persisted and a later step fails, the
stored duration still reflects the metadata step, but the stored title is
overwritten with the truncated error message. -/
theorem claim_C8 (env : DLEnv) (info : MediaInfo) (msg : String)
    (hinfo : env.infoResult = .ok info)
    (hres : (download_video env).result = .error msg) :
    (download_video env).final.duration = info.duration ∧
      (download_video env).final.title = "Error: " ++ pyTake msg 100 :=
  download_video_metadata_retained env info msg hinfo hres

theorem claim_C8_witness :
    metaFailEnv.infoResult = .ok ⟨"My Title", 42⟩ ∧
      (download_video metaFailEnv).result = .error "Download failed: boom" ∧
      ((download_video metaFailEnv).final.duration = (42 : Nat) ∧
        (download_video metaFailEnv).final.title =
          "Error: " ++ pyTake "Download failed: boom" 100) :=
  ⟨by decide, by decide,
    claim_C8 metaFailEnv ⟨"My Title", 42⟩ "Download failed: boom"
      (by decide) (by decide)⟩

/-- C9: both backends compute the persisted word count with the same
function, and every persisted Transcript's word count equals the number
of whitespace-delimited tokens of its full text. -/
theorem claim_C9 :
    openaiWordCount = localWordCount ∧
      (∀ t : String, openaiWordCount t = countTokens false t.data) ∧
      (∀ (env : TEnv) (r : TranscriptRec),
        r ∈ (generate_transcript env).persisted →
        r.word_count = countTokens false r.transcript.data) :=
  ⟨rfl, fun t => pySplitWs_length t.data,
    fun env r hr => generate_transcript_word_count env r hr⟩

theorem claim_C9_witness :
    ({ video_id := "job-ok", transcript := "hello brave new world",
        language := "en", segments := [], word_count := 4 } : TranscriptRec) ∈
        (generate_transcript envLocalOk).persisted ∧
      (4 : Nat) = countTokens false ("hello brave new world" : String).data :=
  ⟨by decide,
    claim_C9.2.2 envLocalOk
      { video_id := "job-ok", transcript := "hello brave new world",
        language := "en", segments := [], word_count := 4 }
      (by decide)⟩

/-- C10: the sanitizer always returns a non-empty string of at most 100
characters whose characters avoid the Windows-invalid set and the
non-printable range, and empty or fully-stripped inputs give "unknown". -/
theorem claim_C10 (s : String) :
    sanitize_filename s ≠ "" ∧
      (sanitize_filename s).length ≤ 100 ∧
      (sanitize_filename s).data.all goodChar = true ∧
      sanitize_filename "" = "unknown" ∧
      sanitize_filename "..." = "unknown" := by
  refine ⟨sanitize_ne_empty s, sanitize_length s, ?_, by decide, by decide⟩
  rw [List.all_eq_true]
  intro c hc
  exact sanitize_goodChar hc

end VideoPlatform
